import Mathlib

/-!
Verification of the Vibe frontend core: the recommendation-session /
regeneration state machine (`+page.svelte` `search`/`regenerate`,
`ResultsView.svelte` gating, `stores.ts` limits) and the playback
coordination mechanism (`ArtistCard.svelte` `play`/`resetHandler`/readiness
listeners and the sidebar `playTrack` path).

The definitions below are a shallow embedding of the TypeScript/Svelte
source: network calls are modelled by passing the request outcome
(`Except String RecResponse`) to the handler, and the single-threaded
callback scheduling of the browser is modelled by running each handler as
one atomic step.
-/

namespace Vibe

/-- A track as returned by the recommendation service
(`Track = \x7b track_id, track_name \x7d` in `stores.ts`). -/
structure STrack where
  track_id : String
  track_name : String
deriving DecidableEq

/-- Response metadata (`RecommendMeta` in `stores.ts`); only the field the
session logic reads is modelled. -/
structure RecMeta where
  has_more_candidates : Bool
deriving DecidableEq

/-- A recommendation response: the artist → tracks map (as an ordered
association list, mirroring a JS object's keys) plus optional metadata. -/
structure RecResponse where
  recommendations : List (String × List STrack)
  meta : Option RecMeta
deriving DecidableEq

/-- `Object.keys(res.recommendations)` as a finite set of artist names. -/
def RecResponse.artistNames (res : RecResponse) : Finset String :=
  (res.recommendations.map Prod.fst).toFinset

/-- `LIMITS.MAX_INPUT_SONGS_PER_ARTIST` from `stores.ts`. -/
def MAX_INPUT_SONGS_PER_ARTIST : Nat := 5

/-- `HIDDEN_ARTIST_LIMIT` from `+page.svelte`. -/
def HIDDEN_ARTIST_LIMIT : Nat := 30

/-- JSON string literal (quotes around the text; internal escaping is not
needed for the reasoning here, only injectivity-by-construction of the
overall shape). -/
def jsonStr (s : String) : String := "\x22" ++ s ++ "\x22"

/-- JSON array of strings, as produced by `JSON.stringify` on a `string[]`. -/
def jsonArr (xs : List String) : String :=
  "[" ++ String.intercalate "," (xs.map jsonStr) ++ "]"

/-- JSON object for the `fineTune` record (artist → selected track names),
keys in insertion order as `JSON.stringify` emits them. -/
def jsonFineTune (ft : List (String × List String)) : String :=
  "\x7b" ++
    String.intercalate ","
      (ft.map (fun p => jsonStr p.1 ++ ":" ++ jsonArr p.2)) ++
    "\x7d"

/-- `JSON.stringify(\x7b selected, fineTune \x7d)` — the serialized search
parameters used both for the `lastSearchParams` baseline (`+page.svelte`)
and for `currentParams` (`ResultsView.svelte`). -/
def serializeParams (selected : List String)
    (fineTune : List (String × List String)) : String :=
  "\x7b\x22selected\x22:" ++ jsonArr selected ++
    ",\x22fineTune\x22:" ++ jsonFineTune fineTune ++ "\x7d"

theorem serializeParams_ne_empty (selected : List String)
    (fineTune : List (String × List String)) :
    serializeParams selected fineTune ≠ "" := by
  intro h
  have hdata := congrArg String.data h
  simp [serializeParams, String.data_append] at hdata

/-- The recommendation-session state: the mutable variables of
`+page.svelte` (`selected`, `fineTune`, `regenerationHistory`,
`lastSearchParams`, `error`) together with the global stores it writes
(`recommendations`, `recommendationsMeta`, `isLoading`). -/
structure SessionState where
  selected : List String
  fineTune : List (String × List String)
  regenerationHistory : Finset String
  lastSearchParams : String
  recommendations : List (String × List STrack)
  recommendationsMeta : Option RecMeta
  isLoading : Bool
  error : Option String
deriving DecidableEq

/-- `search()` from `+page.svelte`, with the network outcome passed in.
Faithful points: the early return on empty `selected`; the history is reset
to a fresh empty set at the start of the `try` block (before the `await`),
so a failed request leaves it empty; on success the response keys are added
to the (just-cleared) history and the live parameters are captured as the
new baseline. -/
def search (st : SessionState) (result : Except String RecResponse) :
    SessionState :=
  if st.selected = [] then st
  else
    match result with
    | Except.ok res =>
      { st with
          error := none
          regenerationHistory := res.artistNames
          recommendations := res.recommendations
          recommendationsMeta := res.meta
          lastSearchParams := serializeParams st.selected st.fineTune
          isLoading := false }
    | Except.error msg =>
      { st with
          regenerationHistory := ∅
          error := some msg
          isLoading := false }

/-- `regenerate()` from `+page.svelte`, with the network outcome passed in.
On success the response keys are merged (set union) into the existing
history and the displayed map/meta are replaced; on failure only the error
message is recorded. `lastSearchParams` is never touched. -/
def regenerate (st : SessionState) (result : Except String RecResponse) :
    SessionState :=
  if st.selected = [] ∨ st.isLoading = true then st
  else
    match result with
    | Except.ok res =>
      { st with
          error := none
          recommendations := res.recommendations
          recommendationsMeta := res.meta
          regenerationHistory := st.regenerationHistory ∪ res.artistNames
          isLoading := false }
    | Except.error msg =>
      { st with error := some msg, isLoading := false }

/-- `paramsChanged` from `ResultsView.svelte`:
`lastSearchParams !== "" && currentParams !== lastSearchParams`. -/
def paramsChanged (st : SessionState) : Bool :=
  decide (st.lastSearchParams ≠ "") &&
    decide (serializeParams st.selected st.fineTune ≠ st.lastSearchParams)

/-- `hasRecommendations` from `ResultsView.svelte`. -/
def hasRecommendations (st : SessionState) : Bool :=
  !st.recommendations.isEmpty

/-- `$recommendationsMeta?.has_more_candidates ?? true`. -/
def metaHasMore (st : SessionState) : Bool :=
  match st.recommendationsMeta with
  | some m => m.has_more_candidates
  | none => true

/-- `canRegenerate` from `ResultsView.svelte`. -/
def canRegenerate (st : SessionState) : Bool :=
  hasRecommendations st && metaHasMore st

/-- `hitArtistLimit` from `+page.svelte`:
`regenerationHistory.size >= HIDDEN_ARTIST_LIMIT`. -/
def hitArtistLimit (st : SessionState) : Bool :=
  decide (HIDDEN_ARTIST_LIMIT ≤ st.regenerationHistory.card)

/-- Negation of the regenerate button's `disabled` expression in
`ResultsView.svelte`:
`!canRegenerate || $isLoading || paramsChanged || hitArtistLimit`. -/
def regenerateEnabled (st : SessionState) : Bool :=
  canRegenerate st && !st.isLoading && !paramsChanged st &&
    !hitArtistLimit st

/-- Negation of the update (search) button's `disabled` expression:
`!selected.length || $isLoading`. -/
def searchEnabled (st : SessionState) : Bool :=
  !st.selected.isEmpty && !st.isLoading

/-- UI-level events that drive the session state machine. -/
inductive SEv
  | searchAttempt (result : Except String RecResponse)
  | regenClick (result : Except String RecResponse)
  | editParams (selected : List String)
      (fineTune : List (String × List String))

/-- Whether an event is a search attempt whose request succeeded. -/
def isSearchSuccess : SEv → Bool
  | SEv.searchAttempt (Except.ok _) => true
  | _ => false

/-- One UI step: a button click only has an effect when the corresponding
button is enabled; editing the seed/fine-tune inputs updates the live
parameters. -/
def sstep (st : SessionState) : SEv → SessionState
  | SEv.searchAttempt r => if st.isLoading then st else search st r
  | SEv.regenClick r => if regenerateEnabled st then regenerate st r else st
  | SEv.editParams sel ft => { st with selected := sel, fineTune := ft }

/-- `toggleSong`'s `fineTune[artist] || []` lookup. -/
def lookupFT (ft : List (String × List String)) (a : String) : List String :=
  ((ft.find? (fun p => p.1 = a)).map Prod.snd).getD []

/-- The spread-update `\x7b ...fineTune, [artist]: v \x7d`: replaces the
value at an existing key in place, otherwise appends the new key. -/
def setFT (ft : List (String × List String)) (a : String)
    (v : List String) : List (String × List String) :=
  if ft.any (fun p => p.1 = a) then
    ft.map (fun p => if p.1 = a then (a, v) else p)
  else ft ++ [(a, v)]

/-- `toggleSong(artist, song)` from `ResultsView.svelte`. -/
def toggleSong (ft : List (String × List String)) (artist song : String) :
    List (String × List String) :=
  let cur := lookupFT ft artist
  if song ∈ cur then setFT ft artist (cur.filter (fun s => s ≠ song))
  else if cur.length < MAX_INPUT_SONGS_PER_ARTIST then
    setFT ft artist (cur ++ [song])
  else ft

/-! ## Playback coordination

Shallow embedding of one `ArtistCard.svelte` instance per mounted result
card plus the shared sidebar/library player of `+page.svelte`.  Spotify
embed controllers are external: the model records, per surface, the
command-level play state of its controller (`ctrlPlaying`: driven
synchronously by the `play`/`pause`/`togglePlay` commands the code issues)
separately from the component's `isActuallyPlaying` flag, which the code
only updates from asynchronous `playback_update` callbacks (or directly in
`play()`).  A `playback_update` delivery is modelled as copying the
controller's current state into the flag.  Every handler also returns the
list of externally visible effects (controller commands and `vibeReset`
broadcasts) it performs. -/

/-- The `\x7b trackId, trackName \x7d` value of a queued `pendingPlay`. -/
structure PendingReq where
  trackId : String
  trackName : String
deriving DecidableEq

/-- A value of the `nowPlaying` / `sidebarPlaying` stores. -/
structure NowRef where
  artist : String
  trackId : String
  trackName : String
deriving DecidableEq

/-- The mutable locals of one mounted `ArtistCard.svelte` instance,
plus the command-level play state of its embed controller. -/
structure CardState where
  hasController : Bool
  isReady : Bool
  firstTrack : String
  currentTrackId : String
  isActuallyPlaying : Bool
  pendingPlay : Option PendingReq
  ctrlPlaying : Bool
deriving DecidableEq

/-- Card-local state right after `onMount` (controller not yet created):
`currentTrackId = firstTrack`, nothing ready, nothing playing. -/
def CardState.init (firstTrack : String) : CardState :=
  { hasController := false
    isReady := false
    firstTrack := firstTrack
    currentTrackId := firstTrack
    isActuallyPlaying := false
    pendingPlay := none
    ctrlPlaying := false }

/-- Whole-page playback state: the mounted cards (keyed by artist name,
one per artist), the `nowPlaying`/`sidebarPlaying` stores, and the sidebar
player's locals from `+page.svelte`. -/
structure Sys where
  cards : List (String × CardState)
  nowPlaying : Option NowRef
  sidebarPlaying : Option NowRef
  sidebarHasController : Bool
  sidebarReady : Bool
  sidebarActuallyPlaying : Bool
  sidebarCtrlPlaying : Bool
deriving DecidableEq

/-- Initial page state for a given set of mounted cards
(artist name, first recommended track id). -/
def Sys.init (cards : List (String × String)) : Sys :=
  { cards := cards.map (fun p => (p.1, CardState.init p.2))
    nowPlaying := none
    sidebarPlaying := none
    sidebarHasController := false
    sidebarReady := false
    sidebarActuallyPlaying := false
    sidebarCtrlPlaying := false }

/-- Controller commands (`loadUri`, `play`, `pause`, `togglePlay`). -/
inductive Cmd
  | loadUri (trackId : String)
  | play
  | pause
  | togglePlay
deriving DecidableEq

/-- Externally visible effects: a command sent to a card's controller, a
command sent to the sidebar controller, or a `vibeReset` broadcast. -/
inductive Eff
  | ctrl (artist : String) (c : Cmd)
  | ctrlLib (c : Cmd)
  | resetBroadcast (artist : String)
deriving DecidableEq

/-- Whether an effect is a `vibeReset` broadcast. -/
def Eff.isReset : Eff → Bool
  | Eff.resetBroadcast _ => true
  | _ => false

/-- Card lookup by artist name. -/
def lookupCard (cs : List (String × CardState)) (a : String) :
    Option CardState :=
  ((cs.find? (fun p => p.1 = a)).map Prod.snd)

/-- Replace the state of the card keyed by `a`. -/
def setCard (cs : List (String × CardState)) (a : String) (v : CardState) :
    List (String × CardState) :=
  cs.map (fun p => if p.1 = a then (a, v) else p)

/-- `window.dispatchEvent(new CustomEvent("vibeReset", \x7b detail \x7d))`:
DOM dispatch runs every subscribed `resetHandler` synchronously.  The
handler of the card whose artist matches pauses its controller and reloads
its `currentTrackId` (if nonempty); it touches neither the stores nor any
card-local flag. -/
def broadcastReset (s : Sys) (target : String) : Sys × List Eff :=
  match lookupCard s.cards target with
  | some cs =>
    if cs.hasController then
      ({ s with cards := setCard s.cards target { cs with ctrlPlaying := false } },
       Eff.resetBroadcast target :: Eff.ctrl target Cmd.pause ::
         (if cs.currentTrackId ≠ "" then
            [Eff.ctrl target (Cmd.loadUri cs.currentTrackId)]
          else []))
    else (s, [Eff.resetBroadcast target])
  | none => (s, [Eff.resetBroadcast target])

/-- The tail of `play()` in `ArtistCard.svelte` after the same-track and
pending branches: pause the sidebar player (if its controller exists) and
clear its highlight, then load and play the requested track on this card,
mark it actually playing, and publish the new `nowPlaying`. -/
def playActivate (s : Sys) (a trackId trackName : String) : Sys × List Eff :=
  let sidebarEff : List Eff :=
    if s.sidebarHasController then [Eff.ctrlLib Cmd.pause] else []
  let s1 : Sys :=
    { s with
        sidebarCtrlPlaying :=
          if s.sidebarHasController then false else s.sidebarCtrlPlaying
        sidebarPlaying := none }
  match lookupCard s1.cards a with
  | some cs =>
    ({ s1 with
        cards := setCard s1.cards a
          { cs with
              currentTrackId := trackId
              ctrlPlaying := true
              isActuallyPlaying := true }
        nowPlaying := some ⟨a, trackId, trackName⟩ },
     sidebarEff ++ [Eff.ctrl a (Cmd.loadUri trackId), Eff.ctrl a Cmd.play])
  | none => (s1, sidebarEff)

/-- `play(trackId, trackName)` from `ArtistCard.svelte`, invoked on the
card of artist `a`.  Branch order as in the source: (1) controller missing
or not ready → queue a `pendingPlay` (overwriting any prior one) and
optimistically publish `nowPlaying`; (2) `nowPlaying` already is this
card+track → `togglePlay` and flip `isActuallyPlaying`; (3) otherwise
broadcast `vibeReset` to the previously active card (when it is a
different card), then activate. -/
def cardPlay (s : Sys) (a trackId trackName : String) : Sys × List Eff :=
  match lookupCard s.cards a with
  | none => (s, [])
  | some cs =>
    if cs.hasController = false ∨ cs.isReady = false then
      ({ s with
          cards := setCard s.cards a
            { cs with pendingPlay := some ⟨trackId, trackName⟩ }
          nowPlaying := some ⟨a, trackId, trackName⟩ }, [])
    else
      match s.nowPlaying with
      | some prev =>
        if prev.artist = a ∧ prev.trackId = trackId then
          ({ s with
              cards := setCard s.cards a
                { cs with
                    ctrlPlaying := !cs.ctrlPlaying
                    isActuallyPlaying := !cs.isActuallyPlaying } },
           [Eff.ctrl a Cmd.togglePlay])
        else
          let r1 := if prev.artist ≠ a then broadcastReset s prev.artist
                    else (s, [])
          let r2 := playActivate r1.1 a trackId trackName
          (r2.1, r1.2 ++ r2.2)
      | none => playActivate s a trackId trackName

/-- The `ready` listener (and the 3 s fallback timeout) registered in
`createController`: mark the card ready and, if a `pendingPlay` is queued,
clear it and re-invoke `play` with it. -/
def cardReady (s : Sys) (a : String) : Sys × List Eff :=
  match lookupCard s.cards a with
  | some cs =>
    if cs.hasController then
      let cs1 : CardState := { cs with isReady := true, pendingPlay := none }
      let s1 : Sys := { s with cards := setCard s.cards a cs1 }
      match cs.pendingPlay with
      | some p => cardPlay s1 a p.trackId p.trackName
      | none => (s1, [])
    else (s, [])
  | none => (s, [])

/-- The `playback_update` listener: mark ready, copy the controller's
current play state into `isActuallyPlaying`, then consume any queued
`pendingPlay` exactly like the `ready` listener. -/
def cardPlaybackUpd (s : Sys) (a : String) : Sys × List Eff :=
  match lookupCard s.cards a with
  | some cs =>
    if cs.hasController then
      let cs1 : CardState :=
        { cs with
            isReady := true
            isActuallyPlaying := cs.ctrlPlaying
            pendingPlay := none }
      let s1 : Sys := { s with cards := setCard s.cards a cs1 }
      match cs.pendingPlay with
      | some p => cardPlay s1 a p.trackId p.trackName
      | none => (s1, [])
    else (s, [])
  | none => (s, [])

/-- `playTrack(track)` from `+page.svelte` (the sidebar/library surface):
same-track clicks toggle the sidebar controller; otherwise broadcast
`vibeReset` to the previously active card (clearing `nowPlaying`), publish
`sidebarPlaying`, and — via the `$effect` — load and play on the sidebar
controller when it exists. -/
def playTrack (s : Sys) (artist trackId trackName : String) :
    Sys × List Eff :=
  if ((match s.sidebarPlaying with
      | some sp => sp.trackId == trackId
      | none => false) && s.sidebarHasController) = true then
    ({ s with sidebarCtrlPlaying := !s.sidebarCtrlPlaying },
     [Eff.ctrlLib Cmd.togglePlay])
  else
    let r1 : Sys × List Eff :=
      match s.nowPlaying with
      | some prev =>
        let r := broadcastReset s prev.artist
        ({ r.1 with nowPlaying := none }, r.2)
      | none => (s, [])
    let s2 : Sys := { r1.1 with sidebarPlaying := some ⟨artist, trackId, trackName⟩ }
    if s2.sidebarHasController then
      ({ s2 with sidebarCtrlPlaying := true },
       r1.2 ++ [Eff.ctrlLib (Cmd.loadUri trackId), Eff.ctrlLib Cmd.play])
    else (s2, r1.2)

/-- The `createController` callback for a card: the controller handle
becomes available (listeners are attached from this point on). -/
def cardControllerCreated (s : Sys) (a : String) : Sys :=
  match lookupCard s.cards a with
  | some cs =>
    if cs.hasController then s
    else { s with cards := setCard s.cards a { cs with hasController := true } }
  | none => s

/-- Events driving the playback model: controller creation, readiness /
`playback_update` deliveries, track clicks on cards, and the sidebar
(library) analogues. -/
inductive PEv
  | ctrlCreated (a : String)
  | ready (a : String)
  | playbackUpd (a : String)
  | click (a trackId trackName : String)
  | sidebarCreated
  | sidebarReadySig
  | sidebarPlaybackUpd
  | sidebarClick (artist trackId trackName : String)

/-- One scheduler step: run the handler the event targets. -/
def pstep (s : Sys) : PEv → Sys × List Eff
  | PEv.ctrlCreated a => (cardControllerCreated s a, [])
  | PEv.ready a => cardReady s a
  | PEv.playbackUpd a => cardPlaybackUpd s a
  | PEv.click a t n => cardPlay s a t n
  | PEv.sidebarCreated => ({ s with sidebarHasController := true }, [])
  | PEv.sidebarReadySig =>
      if s.sidebarHasController then ({ s with sidebarReady := true }, [])
      else (s, [])
  | PEv.sidebarPlaybackUpd =>
      if s.sidebarHasController then
        ({ s with sidebarActuallyPlaying := s.sidebarCtrlPlaying }, [])
      else (s, [])
  | PEv.sidebarClick a t n => playTrack s a t n

/-- Run a sequence of events, accumulating all emitted effects. -/
def runEvents (s : Sys) (evs : List PEv) : Sys × List Eff :=
  evs.foldl (fun acc e =>
    let r := pstep acc.1 e
    (r.1, acc.2 ++ r.2)) (s, [])

/-- Number of surfaces (cards plus the library surface) whose component
flag `isActuallyPlaying` is set. -/
def flagsPlaying (s : Sys) : Nat :=
  (s.cards.filter (fun p => p.2.isActuallyPlaying)).length +
    (if s.sidebarActuallyPlaying then 1 else 0)

/-- Number of surfaces whose controller is in the playing command state. -/
def ctrlsPlaying (s : Sys) : Nat :=
  (s.cards.filter (fun p => p.2.ctrlPlaying)).length +
    (if s.sidebarCtrlPlaying then 1 else 0)

/-! ### Concrete instances used by witnesses and counterexamples -/

/-- A ready card that is currently playing its first track. -/
def c3cs : CardState :=
  { hasController := true
    isReady := true
    firstTrack := "t1"
    currentTrackId := "t1"
    isActuallyPlaying := true
    pendingPlay := none
    ctrlPlaying := true }

/-- A page with the single card `c3cs` whose track is the active one. -/
def c3s : Sys :=
  { cards := [("a", c3cs)]
    nowPlaying := some ⟨"a", "t1", "T1"⟩
    sidebarPlaying := none
    sidebarHasController := false
    sidebarReady := false
    sidebarActuallyPlaying := false
    sidebarCtrlPlaying := false }

/-- A session state with a nonempty accumulated exclusion history. -/
def c4st : SessionState :=
  { selected := ["A"]
    fineTune := []
    regenerationHistory := {"X"}
    lastSearchParams := ""
    recommendations := [("X", [⟨"x1", "X one"⟩])]
    recommendationsMeta := some ⟨true⟩
    isLoading := false
    error := none }

/-- A populated session state in which the regenerate button is enabled. -/
def c6stA : SessionState :=
  { selected := ["A"]
    fineTune := []
    regenerationHistory := {"X", "Y"}
    lastSearchParams := ""
    recommendations := [("X", [⟨"x1", "X one"⟩])]
    recommendationsMeta := some ⟨true⟩
    isLoading := false
    error := none }

/-- A populated session state whose last response reported exhaustion. -/
def c6stB : SessionState :=
  { c6stA with recommendationsMeta := some ⟨false⟩ }

/-- Twenty-nine distinct artist names. -/
def c7hist : List String :=
  ["h01", "h02", "h03", "h04", "h05", "h06", "h07", "h08", "h09", "h10",
   "h11", "h12", "h13", "h14", "h15", "h16", "h17", "h18", "h19", "h20",
   "h21", "h22", "h23", "h24", "h25", "h26", "h27", "h28", "h29"]

/-- A session state whose exclusion history already holds 29 artists. -/
def c7st : SessionState :=
  { selected := ["A"]
    fineTune := []
    regenerationHistory := c7hist.toFinset
    lastSearchParams := ""
    recommendations := [("X", [⟨"x1", "X one"⟩])]
    recommendationsMeta := some ⟨true⟩
    isLoading := false
    error := none }

/-- A regenerate response carrying three previously unseen artists. -/
def c7res : RecResponse :=
  { recommendations :=
      [("n1", [⟨"p1", "P1"⟩]), ("n2", [⟨"p2", "P2"⟩]), ("n3", [⟨"p3", "P3"⟩])]
    meta := some ⟨true⟩ }

/-- A session state about to run a successful search with seeds A, B. -/
def c8st : SessionState :=
  { selected := ["A", "B"]
    fineTune := []
    regenerationHistory := ∅
    lastSearchParams := ""
    recommendations := []
    recommendationsMeta := none
    isLoading := false
    error := none }

/-- A successful search response for the C8 scenario. -/
def c8res : RecResponse :=
  { recommendations := [("X", [⟨"x1", "X one"⟩])], meta := some ⟨true⟩ }

/-- A mounted, ready card whose current track (`"t2"`) differs from its
first recommended track (`"t1"`), as happens after the card has played its
second track. -/
def c9cs : CardState :=
  { hasController := true
    isReady := true
    firstTrack := "t1"
    currentTrackId := "t2"
    isActuallyPlaying := true
    pendingPlay := none
    ctrlPlaying := true }

/-- A page containing only the card `c9cs`. -/
def c9s : Sys :=
  { cards := [("a", c9cs)]
    nowPlaying := some ⟨"a", "t2", "T2"⟩
    sidebarPlaying := none
    sidebarHasController := false
    sidebarReady := false
    sidebarActuallyPlaying := false
    sidebarCtrlPlaying := false }

/-! ## Theorems for the claims -/

/-- Claim C9, counterexample.  The claim says a delivered reset makes the
card reload its first recommended track.  In the reachable state where card
`a` (first track `"t1"`) has played its second track `"t2"` and the user
then plays a library track, the reset delivered to `a` issues
`loadUri "t2"` — the card's current track — and not `loadUri "t1"`. -/
theorem c9_reset_reloads_second_track_not_first :
    (playTrack (runEvents (Sys.init [("a", "t1")])
        [PEv.ctrlCreated "a", PEv.ready "a", PEv.click "a" "t1" "T1",
         PEv.click "a" "t2" "T2"]).1 "F" "f1" "F1").2 =
      [Eff.resetBroadcast "a", Eff.ctrl "a" Cmd.pause,
       Eff.ctrl "a" (Cmd.loadUri "t2")] ∧
    (lookupCard (runEvents (Sys.init [("a", "t1")])
        [PEv.ctrlCreated "a", PEv.ready "a", PEv.click "a" "t1" "T1",
         PEv.click "a" "t2" "T2"]).1.cards "a").map CardState.firstTrack =
      some "t1" ∧
    ("t2" : String) ≠ "t1" := by
  refine ⟨by decide, by decide, by decide⟩

/-- Claim C9 (amended): delivering a reset broadcast addressed to card `a`
pauses `a`'s controller and reloads `a`'s CURRENT track (`currentTrackId`,
which is the first recommended track only until the card plays another
track), and the notification is one-way: it changes no store
(`nowPlaying`, `sidebarPlaying`), no flag, and no other card — the whole
effect is the pause/reload pair on `a`'s controller. -/
theorem c9_reset_pauses_and_reloads_current (s : Sys) (a : String)
    (cs : CardState) (hc : lookupCard s.cards a = some cs)
    (hctrl : cs.hasController = true) (hcur : cs.currentTrackId ≠ "") :
    broadcastReset s a =
      ({ s with cards := setCard s.cards a { cs with ctrlPlaying := false } },
       [Eff.resetBroadcast a, Eff.ctrl a Cmd.pause,
        Eff.ctrl a (Cmd.loadUri cs.currentTrackId)]) := by
  simp [broadcastReset, hc, hctrl, hcur]

/-- Claim C9, witness: the amended theorem applied to `c9s`. -/
theorem c9_witness :
    broadcastReset c9s "a" =
      ({ c9s with cards := setCard c9s.cards "a" { c9cs with ctrlPlaying := false } },
       [Eff.resetBroadcast "a", Eff.ctrl "a" Cmd.pause,
        Eff.ctrl "a" (Cmd.loadUri "t2")]) :=
  c9_reset_pauses_and_reloads_current c9s "a" c9cs rfl rfl (by decide)

/-- Claim C1, code bug.  From the initial page with cards `a` (first track
`"t1"`) and `b` (first track `"u1"`), the sequence: both controllers are
created, `a` becomes ready, the user plays `"t1"` on `a`, then clicks
`"u2"` on the not-yet-ready `b`, and `b` then signals ready.  The pending
play resolves through `play`'s same-track branch (because `nowPlaying` was
optimistically set to `(b, u2)`), so it only calls `togglePlay` and never
broadcasts a reset to `a`: afterwards BOTH surfaces have
`isActuallyPlaying = true` and both controllers are in the playing command
state, while no reset broadcast was ever emitted — so no "reset in flight"
window excuses the violation of the at-most-one-playing invariant. -/
theorem c1_pending_resolution_two_playing :
    flagsPlaying (runEvents (Sys.init [("a", "t1"), ("b", "u1")])
      [PEv.ctrlCreated "a", PEv.ctrlCreated "b", PEv.ready "a",
       PEv.click "a" "t1" "T1", PEv.click "b" "u2" "U2",
       PEv.ready "b"]).1 = 2 ∧
    ctrlsPlaying (runEvents (Sys.init [("a", "t1"), ("b", "u1")])
      [PEv.ctrlCreated "a", PEv.ctrlCreated "b", PEv.ready "a",
       PEv.click "a" "t1" "T1", PEv.click "b" "u2" "U2",
       PEv.ready "b"]).1 = 2 ∧
    (runEvents (Sys.init [("a", "t1"), ("b", "u1")])
      [PEv.ctrlCreated "a", PEv.ctrlCreated "b", PEv.ready "a",
       PEv.click "a" "t1" "T1", PEv.click "b" "u2" "U2",
       PEv.ready "b"]).2.filter Eff.isReset = [] := by
  refine ⟨by decide, by decide, by decide⟩

/-- Claim C2, code bug.  A play request for `"u2"` on the not-yet-ready
card `b` records the pending play and optimistically sets `nowPlaying`
with no controller command; but when `b` signals ready, the resolution
re-enters `play`, which now sees `nowPlaying = (b, u2)` and takes the
same-track branch: the only command issued is `togglePlay` — there is no
`loadUri "u2"` and no `play` command, so the controller starts the still
loaded first track `"u1"` instead of the requested `"u2"` (the claim's
"load-then-play call sequence for T" does not happen).  `ActiveTrack`
does end up `(b, u2)` and no reset is addressed to `b`. -/
theorem c2_pending_resolution_toggles_without_load :
    (runEvents (Sys.init [("b", "u1")])
      [PEv.ctrlCreated "b", PEv.click "b" "u2" "U2"]).1.nowPlaying =
        some ⟨"b", "u2", "U2"⟩ ∧
    (runEvents (Sys.init [("b", "u1")])
      [PEv.ctrlCreated "b", PEv.click "b" "u2" "U2"]).2 = [] ∧
    lookupCard (runEvents (Sys.init [("b", "u1")])
      [PEv.ctrlCreated "b", PEv.click "b" "u2" "U2"]).1.cards "b" =
      some { hasController := true, isReady := false, firstTrack := "u1",
             currentTrackId := "u1", isActuallyPlaying := false,
             pendingPlay := some ⟨"u2", "U2"⟩, ctrlPlaying := false } ∧
    (cardReady (runEvents (Sys.init [("b", "u1")])
      [PEv.ctrlCreated "b", PEv.click "b" "u2" "U2"]).1 "b").2 =
      [Eff.ctrl "b" Cmd.togglePlay] ∧
    (cardReady (runEvents (Sys.init [("b", "u1")])
      [PEv.ctrlCreated "b", PEv.click "b" "u2" "U2"]).1 "b").1.nowPlaying =
      some ⟨"b", "u2", "U2"⟩ := by
  refine ⟨by decide, by decide, by decide, by decide, by decide⟩

/-- Claim C3: when `nowPlaying` already equals this card and track and the
card's controller exists and is ready, `play` only issues `togglePlay`:
no reset broadcast, no load, no store change — the returned state differs
from the input only in the card's playing sub-state flags
(`isActuallyPlaying` and the controller's play state are negated). -/
theorem c3_same_track_click_toggles (s : Sys) (a t n n0 : String)
    (cs : CardState) (hc : lookupCard s.cards a = some cs)
    (hctrl : cs.hasController = true) (hrdy : cs.isReady = true)
    (hnow : s.nowPlaying = some ⟨a, t, n0⟩) :
    cardPlay s a t n =
      ({ s with
          cards := setCard s.cards a
            { cs with
                ctrlPlaying := !cs.ctrlPlaying
                isActuallyPlaying := !cs.isActuallyPlaying } },
       [Eff.ctrl a Cmd.togglePlay]) := by
  simp [cardPlay, hc, hctrl, hrdy, hnow]

/-- Claim C3, witness: a second click on the already-active track of the
ready card `c3cs` toggles it off and issues exactly one `togglePlay`. -/
theorem c3_witness :
    cardPlay c3s "a" "t1" "X" =
      ({ c3s with
          cards := setCard c3s.cards "a"
            { c3cs with
                ctrlPlaying := !c3cs.ctrlPlaying
                isActuallyPlaying := !c3cs.isActuallyPlaying } },
       [Eff.ctrl "a" Cmd.togglePlay]) :=
  c3_same_track_click_toggles c3s "a" "t1" "X" "T1" c3cs rfl rfl rfl rfl

/-- Claim C4, counterexample.  The claim says a fresh search attempt that
fails leaves the previously accumulated `ExclusionHistory` unchanged.  In
the code, `regenerationHistory = new Set()` runs before the `await`, so a
failed search leaves the history empty, not equal to its prior value
`\x7b"X"\x7d`. -/
theorem c4_failed_search_clears_history :
    (search c4st (Except.error "network down")).regenerationHistory = ∅ ∧
    (search c4st (Except.error "network down")).regenerationHistory ≠
      c4st.regenerationHistory := by
  refine ⟨by decide, by decide⟩

/-- Claim C4 (amended): the `ExclusionHistory` is cleared whenever a fresh
full search attempt begins, regardless of outcome: a failed fresh search
leaves it empty (the prior history is discarded, the displayed map is kept),
and a successful fresh search re-seeds it with exactly the response's
artist names (again discarding the prior history). -/
theorem c4_history_cleared_at_search_start (st : SessionState)
    (msg : String) (res : RecResponse) (h : st.selected ≠ []) :
    (search st (Except.error msg)).regenerationHistory = ∅ ∧
    (search st (Except.error msg)).recommendations = st.recommendations ∧
    (search st (Except.error msg)).error = some msg ∧
    (search st (Except.ok res)).regenerationHistory = res.artistNames := by
  refine ⟨?_, ?_, ?_, ?_⟩ <;> simp [search, h]

/-- Claim C4, witness: the amended theorem at `c4st`. -/
theorem c4_witness :
    (search c4st (Except.error "x")).regenerationHistory = ∅ ∧
    (search c4st (Except.error "x")).recommendations = c4st.recommendations ∧
    (search c4st (Except.error "x")).error = some "x" ∧
    (search c4st (Except.ok c8res)).regenerationHistory = c8res.artistNames :=
  c4_history_cleared_at_search_start c4st "x" c8res (by decide)

/-- Claim C5: a failed regeneration leaves the displayed recommendation
map, the exclusion history, the response metadata and the parameter
baseline unchanged, and records the failure as the user-facing error
message.  (`regenerate` is a total function of the request outcome: the
`catch` swallows the exception, so nothing is thrown.) -/
theorem c5_regenerate_failure_retains (st : SessionState) (msg : String)
    (hsel : st.selected ≠ []) (hload : st.isLoading = false) :
    (regenerate st (Except.error msg)).recommendations =
        st.recommendations ∧
    (regenerate st (Except.error msg)).regenerationHistory =
        st.regenerationHistory ∧
    (regenerate st (Except.error msg)).recommendationsMeta =
        st.recommendationsMeta ∧
    (regenerate st (Except.error msg)).lastSearchParams =
        st.lastSearchParams ∧
    (regenerate st (Except.error msg)).error = some msg := by
  refine ⟨?_, ?_, ?_, ?_, ?_⟩ <;> simp [regenerate, hsel, hload]

/-- Claim C5, witness: the theorem at `c4st`. -/
theorem c5_witness :
    (regenerate c4st (Except.error "boom")).recommendations =
        c4st.recommendations ∧
    (regenerate c4st (Except.error "boom")).regenerationHistory =
        c4st.regenerationHistory ∧
    (regenerate c4st (Except.error "boom")).recommendationsMeta =
        c4st.recommendationsMeta ∧
    (regenerate c4st (Except.error "boom")).lastSearchParams =
        c4st.lastSearchParams ∧
    (regenerate c4st (Except.error "boom")).error = some "boom" :=
  c5_regenerate_failure_retains c4st "boom" (by decide) rfl

/-- If the last stored response metadata reports exhaustion, the
regenerate action is disabled. -/
theorem metaFalse_regen_disabled (st : SessionState)
    (h : st.recommendationsMeta = some ⟨false⟩) :
    regenerateEnabled st = false := by
  simp [regenerateEnabled, canRegenerate, metaHasMore, h]

/-- Exhaustion metadata is preserved by every UI event that is not a
successful search. -/
theorem metaFalse_sticky (evs : List SEv) :
    ∀ st : SessionState, st.recommendationsMeta = some ⟨false⟩ →
      (∀ e ∈ evs, isSearchSuccess e = false) →
      (evs.foldl sstep st).recommendationsMeta = some ⟨false⟩ := by
  induction evs with
  | nil => intro st h _; simpa using h
  | cons e rest ih =>
    intro st h hall
    have he : isSearchSuccess e = false := hall e (by simp)
    have hrest : ∀ x ∈ rest, isSearchSuccess x = false :=
      fun x hx => hall x (by simp [hx])
    rw [List.foldl_cons]
    apply ih _ _ hrest
    cases e with
    | searchAttempt r =>
      cases r with
      | ok res => simp [isSearchSuccess] at he
      | error msg =>
        simp only [sstep, search]
        split
        · exact h
        · split
          · exact h
          · simpa using h
    | regenClick r =>
      simp [sstep, metaFalse_regen_disabled st h, h]
    | editParams sel ft =>
      simpa [sstep] using h

/-- Claim C6: (1) whenever the regenerate action is enabled, no request is
loading, the stale-parameters flag is off, the exclusion history is below
`HIDDEN_ARTIST_LIMIT`, and the stored metadata does not report exhaustion
(the code treats a response without metadata as "more candidates exist");
and (2) exhaustion stickiness: once the stored metadata says
`has_more_candidates = false`, the regenerate action stays disabled across
any sequence of UI events that contains no successful search. -/
theorem c6_regenerate_gating :
    (∀ st : SessionState, regenerateEnabled st = true →
        st.isLoading = false ∧ paramsChanged st = false ∧
        st.regenerationHistory.card < HIDDEN_ARTIST_LIMIT ∧
        metaHasMore st = true) ∧
    (∀ (st : SessionState) (evs : List SEv),
        st.recommendationsMeta = some ⟨false⟩ →
        (∀ e ∈ evs, isSearchSuccess e = false) →
        regenerateEnabled (evs.foldl sstep st) = false) := by
  constructor
  · intro st h
    simp only [regenerateEnabled, Bool.and_eq_true, Bool.not_eq_true',
      canRegenerate] at h
    obtain ⟨⟨⟨⟨hrec, hmore⟩, hload⟩, hpc⟩, hart⟩ := h
    refine ⟨hload, hpc, ?_, hmore⟩
    simpa [hitArtistLimit, Nat.not_le] using hart
  · intro st evs h hall
    exact metaFalse_regen_disabled _ (metaFalse_sticky evs st h hall)

/-- Claim C6, witness: part (1) at the enabled state `c6stA`; part (2) at
the exhausted state `c6stB` across a blocked regenerate click. -/
theorem c6_witness :
    (c6stA.isLoading = false ∧ paramsChanged c6stA = false ∧
      c6stA.regenerationHistory.card < HIDDEN_ARTIST_LIMIT ∧
      metaHasMore c6stA = true) ∧
    regenerateEnabled
      ([SEv.regenClick (Except.error "x")].foldl sstep c6stB) = false :=
  ⟨c6_regenerate_gating.1 c6stA (by decide),
   c6_regenerate_gating.2 c6stB [SEv.regenClick (Except.error "x")] rfl
     (by intro e he; rw [List.mem_singleton] at he; subst he; rfl)⟩

/-- Claim C7: a successful regeneration replaces the exclusion history by
its union with the response's artist names (so the old history is a subset
of the new one), and from a 29-element history a response with 3 unseen
artists yields 32, which is at or above `HIDDEN_ARTIST_LIMIT = 30` and so
disables further regeneration. -/
theorem c7_history_merge_union (st : SessionState) (res : RecResponse)
    (hsel : st.selected ≠ []) (hload : st.isLoading = false) :
    (regenerate st (Except.ok res)).regenerationHistory =
        st.regenerationHistory ∪ res.artistNames ∧
    st.regenerationHistory ⊆
        (regenerate st (Except.ok res)).regenerationHistory ∧
    (st.regenerationHistory.card = 29 → res.artistNames.card = 3 →
      st.regenerationHistory ∩ res.artistNames = ∅ →
      (regenerate st (Except.ok res)).regenerationHistory.card = 32 ∧
      regenerateEnabled (regenerate st (Except.ok res)) = false) := by
  have hreg : (regenerate st (Except.ok res)).regenerationHistory =
      st.regenerationHistory ∪ res.artistNames := by
    simp [regenerate, hsel, hload]
  refine ⟨hreg, ?_, ?_⟩
  · rw [hreg]
    exact Finset.subset_union_left
  · intro h29 h3 hinter
    have hd : Disjoint st.regenerationHistory res.artistNames :=
      Finset.disjoint_iff_inter_eq_empty.mpr hinter
    have hcard : (regenerate st (Except.ok res)).regenerationHistory.card = 32 := by
      rw [hreg, Finset.card_union_of_disjoint hd, h29, h3]
    refine ⟨hcard, ?_⟩
    simp [regenerateEnabled, hitArtistLimit, hcard, HIDDEN_ARTIST_LIMIT]

/-- Claim C7, witness: the theorem at the 29-artist history `c7st` and the
3-artist response `c7res`. -/
theorem c7_witness :
    (regenerate c7st (Except.ok c7res)).regenerationHistory =
        c7st.regenerationHistory ∪ c7res.artistNames ∧
    (regenerate c7st (Except.ok c7res)).regenerationHistory.card = 32 ∧
    regenerateEnabled (regenerate c7st (Except.ok c7res)) = false := by
  have h := c7_history_merge_union c7st c7res (by decide) rfl
  have h2 := h.2.2 (by decide) (by decide) (by decide)
  exact ⟨h.1, h2.1, h2.2⟩

/-- Claim C8: (1) immediately after a successful search the
stale-parameters flag is false (the baseline is captured as the
serialization of the live parameters); (2) with that baseline in place,
the flag equals exactly "the live parameters serialize differently from
the captured baseline"; (3) while the flag is true the regenerate action
is disabled; (4) the search action is available regardless (it only needs
a nonempty seed list and no in-flight request). -/
theorem c8_stale_params_flag (st : SessionState) (res : RecResponse)
    (sel2 : List String) (ft2 : List (String × List String))
    (hsel : st.selected ≠ []) :
    paramsChanged (search st (Except.ok res)) = false ∧
    (paramsChanged
        { search st (Except.ok res) with selected := sel2, fineTune := ft2 } =
      decide (serializeParams sel2 ft2 ≠
        serializeParams st.selected st.fineTune)) ∧
    (∀ st2 : SessionState, paramsChanged st2 = true →
      regenerateEnabled st2 = false) ∧
    (∀ st2 : SessionState, st2.selected ≠ [] → st2.isLoading = false →
      searchEnabled st2 = true) := by
  refine ⟨?_, ?_, ?_, ?_⟩
  · simp [paramsChanged, search, hsel]
  · have hne := serializeParams_ne_empty st.selected st.fineTune
    simp [paramsChanged, search, hsel, hne]
  · intro st2 h
    simp [regenerateEnabled, h]
  · intro st2 h1 h2
    cases hsel2 : st2.selected with
    | nil => exact absurd hsel2 h1
    | cons x xs => simp [searchEnabled, hsel2, h2]

/-- Claim C8, witness: after a successful search at `c8st` with seeds
`["A", "B"]`, the flag is clear; extending the seeds to `["A", "B", "C"]`
sets it (the serializations differ). -/
theorem c8_witness :
    paramsChanged (search c8st (Except.ok c8res)) = false ∧
    paramsChanged
        { search c8st (Except.ok c8res) with
            selected := ["A", "B", "C"], fineTune := [] } =
      decide (serializeParams ["A", "B", "C"] [] ≠
        serializeParams c8st.selected c8st.fineTune) :=
  ⟨(c8_stale_params_flag c8st c8res ["A", "B", "C"] [] (by decide)).1,
   (c8_stale_params_flag c8st c8res ["A", "B", "C"] [] (by decide)).2.1⟩

/-- Claim C10: selecting a song that is not yet selected for an artist
whose fine-tune selection already holds `MAX_INPUT_SONGS_PER_ARTIST = 5`
tracks leaves the whole fine-tune mapping unchanged (a no-op, not an
overwrite and not an error). -/
theorem c10_select_at_capacity_noop (ft : List (String × List String))
    (artist song : String) (hnot : song ∉ lookupFT ft artist)
    (hfull : (lookupFT ft artist).length = MAX_INPUT_SONGS_PER_ARTIST) :
    toggleSong ft artist song = ft := by
  simp [toggleSong, hnot, hfull, MAX_INPUT_SONGS_PER_ARTIST]

/-- Claim C10, witness: a sixth song for an artist with five selections. -/
theorem c10_witness :
    toggleSong [("A", ["s1", "s2", "s3", "s4", "s5"])] "A" "s6" =
      [("A", ["s1", "s2", "s3", "s4", "s5"])] :=
  c10_select_at_capacity_noop [("A", ["s1", "s2", "s3", "s4", "s5"])] "A" "s6"
    (by decide) (by decide)

end Vibe

